import Mathlib

/-!
Shallow embedding of the MindToEye Flask backend (src/ai_helpers.py,
src/storage.py) together with proofs about the claims of its
natural-language specification.

Conventions used throughout:
  * Python dicts with a fixed field set are embedded as Lean structures;
    a field that may be absent from the dict becomes an `Option`.
  * Python values parsed by `json.loads` are embedded as the inductive
    type `Json` below, and `json.loads` itself as the executable parser
    `jsonLoads` (integers only in number position; enough for every
    input considered here).
  * Fallible Python code (raise / uncaught exceptions) is embedded as
    `Except GenError _` or `Option _`.
  * `random.randint` and `datetime.now()` results are passed in as
    explicit arguments (`seed`, `now`).
  * Outbound calls to the Anthropic text service are logged in a trace
    (`List ServiceCall`) returned next to the result, so that "makes no
    network call" is expressible as an empty trace.
-/

/- Named characters, used instead of character literals for the
   punctuation that the JSON scanner cares about. -/

def spaceChar : Char := Char.ofNat 32
def tabChar : Char := Char.ofNat 9
def lfChar : Char := Char.ofNat 10
def crChar : Char := Char.ofNat 13
def quoteChar : Char := Char.ofNat 34
def backslashChar : Char := Char.ofNat 92
def commaChar : Char := Char.ofNat 44
def colonChar : Char := Char.ofNat 58
def minusChar : Char := Char.ofNat 45
def lbrackChar : Char := Char.ofNat 91
def rbrackChar : Char := Char.ofNat 93
def lbraceChar : Char := Char.ofNat 123
def rbraceChar : Char := Char.ofNat 125

/-- JSON values: the results of Python's `json.loads`. Numbers are
restricted to integers (no input considered in this development uses a
fractional or exponent form). -/
inductive Json where
  | null : Json
  | bool (b : Bool) : Json
  | num (n : Int) : Json
  | str (s : String) : Json
  | arr (elems : List Json) : Json
  | obj (fields : List (String × Json)) : Json

/-- Field lookup on a JSON object, the embedding of Python
`d.get(key, default)` on a dict: `none` when the value is not an object
(Python raises `AttributeError` there). -/
def Json.getD (j : Json) (key : String) (dflt : Json) : Option Json :=
  match j with
  | .obj fields =>
    match fields.lookup key with
    | some v => some v
    | none => some dflt
  | _ => none

/-- Key list of a JSON object (`none` when the value is not an object). -/
def Json.objKeys (j : Json) : Option (List String) :=
  match j with
  | .obj fields => some (fields.map Prod.fst)
  | _ => none

/- A little recursive-descent JSON parser, the executable semantics of
   `json.loads`. -/

/-- Drop leading JSON whitespace. -/
def skipWs : List Char → List Char
  | [] => []
  | c :: cs =>
    if c = spaceChar ∨ c = tabChar ∨ c = lfChar ∨ c = crChar then skipWs cs
    else c :: cs

/-- Translate a (single-character) escape sequence inside a JSON string. -/
def unescapeChar (c : Char) : Char :=
  if c = 'n' then lfChar
  else if c = 't' then tabChar
  else if c = 'r' then crChar
  else c

/-- Parse the remainder of a JSON string literal (the opening quote has
already been consumed), returning the decoded string and the rest of the
input. -/
def parseStringLit : List Char → Option (String × List Char)
  | [] => none
  | [c] => if c = quoteChar then some ("", []) else none
  | c :: d :: cs =>
    if c = quoteChar then some ("", d :: cs)
    else if c = backslashChar then
      (parseStringLit cs).map fun p => (String.mk (unescapeChar d :: p.1.data), p.2)
    else
      (parseStringLit (d :: cs)).map fun p => (String.mk (c :: p.1.data), p.2)

/-- Accumulate a run of decimal digits. -/
def parseDigitsAux : List Char → Nat → Nat × List Char
  | [], acc => (acc, [])
  | c :: cs, acc =>
    if c.isDigit then parseDigitsAux cs (acc * 10 + (c.toNat - 48))
    else (acc, c :: cs)

/-- Parse an integer JSON number (optionally negative). -/
def parseNumber : List Char → Option (Int × List Char)
  | [] => none
  | c :: cs =>
    if c = minusChar then
      match cs with
      | [] => none
      | d :: cs2 =>
        if d.isDigit then
          let p := parseDigitsAux (d :: cs2) 0
          some (-(p.1 : Int), p.2)
        else none
    else if c.isDigit then
      let p := parseDigitsAux (c :: cs) 0
      some ((p.1 : Int), p.2)
    else none

mutual

/-- Parse one JSON value (fuelled recursion). -/
def parseVal : Nat → List Char → Option (Json × List Char)
  | 0, _ => none
  | fuel + 1, cs =>
    match skipWs cs with
    | 'n' :: 'u' :: 'l' :: 'l' :: rest => some (.null, rest)
    | 't' :: 'r' :: 'u' :: 'e' :: rest => some (.bool true, rest)
    | 'f' :: 'a' :: 'l' :: 's' :: 'e' :: rest => some (.bool false, rest)
    | c :: rest =>
      if c = quoteChar then
        (parseStringLit rest).map fun p => (.str p.1, p.2)
      else if c = lbrackChar then
        match skipWs rest with
        | d :: rest2 =>
          if d = rbrackChar then some (.arr [], rest2)
          else (parseItems fuel (d :: rest2)).map fun p => (.arr p.1, p.2)
        | [] => none
      else if c = lbraceChar then
        match skipWs rest with
        | d :: rest2 =>
          if d = rbraceChar then some (.obj [], rest2)
          else (parseFields fuel (d :: rest2)).map fun p => (.obj p.1, p.2)
        | [] => none
      else
        (parseNumber (c :: rest)).map fun p => (.num p.1, p.2)
    | [] => none

/-- Parse the comma-separated items of a JSON array up to the closing
bracket. -/
def parseItems : Nat → List Char → Option (List Json × List Char)
  | 0, _ => none
  | fuel + 1, cs =>
    match parseVal fuel cs with
    | none => none
    | some (v, rest) =>
      match skipWs rest with
      | c :: rest2 =>
        if c = commaChar then
          (parseItems fuel rest2).map fun p => (v :: p.1, p.2)
        else if c = rbrackChar then some ([v], rest2)
        else none
      | [] => none

/-- Parse the comma-separated fields of a JSON object up to the closing
brace. -/
def parseFields : Nat → List Char → Option (List (String × Json) × List Char)
  | 0, _ => none
  | fuel + 1, cs =>
    match skipWs cs with
    | c :: rest =>
      if c = quoteChar then
        match parseStringLit rest with
        | none => none
        | some (k, rest1) =>
          match skipWs rest1 with
          | d :: rest2 =>
            if d = colonChar then
              match parseVal fuel rest2 with
              | none => none
              | some (v, rest3) =>
                match skipWs rest3 with
                | e :: rest4 =>
                  if e = commaChar then
                    (parseFields fuel rest4).map fun p => ((k, v) :: p.1, p.2)
                  else if e = rbraceChar then some ([(k, v)], rest4)
                  else none
                | [] => none
            else none
          | [] => none
      else none
    | [] => none

end

/-- The embedding of Python `json.loads`: parse a whole string as one
JSON value (trailing whitespace allowed), `none` on failure
(`json.JSONDecodeError` in Python). -/
def jsonLoads (s : String) : Option Json :=
  match parseVal (2 * s.length + 2) s.data with
  | some (v, rest) => if skipWs rest = [] then some v else none
  | none => none

example : jsonLoads "42" = some (.num 42) := rfl
example : jsonLoads " \x7b\"a\": [1, -2], \"b\": \"x\"\x7d " =
    some (.obj [("a", .arr [.num 1, .num (-2)]), ("b", .str "x")]) := rfl
example : jsonLoads "\x7b" = none := rfl
example : jsonLoads "null" = some .null := rfl

/- Embedding of src/ai_helpers.py. -/

set_option linter.unusedVariables false

/-- Index of the first occurrence of a character. -/
def firstIdxOf (c : Char) (cs : List Char) : Option Nat := cs.findIdx? (· = c)

/-- Index of the last occurrence of a character. -/
def lastIdxOf (c : Char) (cs : List Char) : Option Nat :=
  (cs.reverse.findIdx? (· = c)).map fun k => cs.length - 1 - k

/-- Semantics of Python `re.search(r'\x7b[\s\S]*\x7d', s)` (and of its
bracket variant): the regex is greedy, so a match runs from the first
opener that has a closer somewhere after it to the last closer of the
whole string. Since every opener position is at or after the first one,
a match exists exactly when the first opener index precedes the last
closer index, and then the matched text is the inclusive slice between
those two positions. -/
def spanExtract (opener closer : Char) (s : String) : Option String :=
  match firstIdxOf opener s.data, lastIdxOf closer s.data with
  | some i, some j =>
    if i < j then some (String.mk ((s.data.drop i).take (j + 1 - i))) else none
  | _, _ => none

/-- Embedding of `re.search(r'\x7b[\s\S]*\x7d', content)` as used in
`generate_brand_concept` and `regenerate_typography`. -/
def extractBraceSpan (s : String) : Option String := spanExtract lbraceChar rbraceChar s

/-- Embedding of `re.search(r'\[[\s\S]*\]', content)` as used in
`regenerate_colors`. -/
def extractBracketSpan (s : String) : Option String := spanExtract lbrackChar rbrackChar s

/-- Error outcomes of the ai_helpers functions (Python exceptions). -/
inductive GenError where
  | emptyResponse : GenError
  | unexpectedFormat : GenError
  | parseError (s : String) : GenError
  | indexError : GenError
  | attributeError : GenError
  | typeError : GenError
  | valueError (msg : String) : GenError
deriving DecidableEq, Repr

/-- The response-extraction step shared by the three JSON-returning call
sites (ai_helpers.py lines 119-124, 363-368, 421-426):
`json_match = re.search(...); json_str = json_match.group(0) if
json_match else content; json.loads(json_str)`. -/
def extract_and_parse (spanOf : String → Option String) (content : String) :
    Except GenError Json :=
  let json_str := (spanOf content).getD content
  match jsonLoads json_str with
  | some v => .ok v
  | none => .error (.parseError json_str)

/-- One entry of a BrandInput values list (`\x7bid, value\x7d` dicts). -/
structure BrandValue where
  id : Option String
  value : String

/-- The brand_input dict: every field may be absent. -/
structure BrandInput where
  brandName : Option String
  industry : Option String
  description : Option String
  values : Option (List BrandValue)
  designStyle : Option String
  colorPreferences : Option (List String)

/-- A stored color swatch dict; fields may be absent. A present
non-string field value is treated as absent (Python would carry the raw
value along; no input in this development exercises that corner). -/
structure ColorSwatch where
  name : Option String
  hex : Option String
  type : Option String
deriving DecidableEq

/-- One chat message of an Anthropic request. -/
structure ChatMessage where
  role : String
  content : String
deriving DecidableEq

/-- An `anthropic_client.messages.create(...)` request. The sampling
temperature is kept as its source text (floating point is not modelled;
no logic reads it). -/
structure MessageRequest where
  model : String
  max_tokens : Nat
  temperature : String
  system : String
  messages : List ChatMessage
deriving DecidableEq

/-- One content block of an Anthropic response. -/
structure ContentBlock where
  type : String
  text : String

/-- An Anthropic response: a list of content blocks. -/
structure AIResponse where
  content : List ContentBlock

/-- The text-generation service: any function from request to response. -/
def TextClient : Type := MessageRequest → AIResponse

/-- A `replicate_client.run(...)` request (spec section 6). -/
structure ImageRequest where
  model : String
  prompt : String
  width : Nat
  height : Nat
  negative_prompt : String
  num_outputs : Nat
  num_inference_steps : Nat
deriving DecidableEq

/-- The image-generation service: any function from request to a result
or a failure (so an always-failing stub is expressible). -/
def ImageClient : Type := ImageRequest → Except String (List String)

/-- An outbound call to one of the two generative services. -/
inductive ServiceCall where
  | text (req : MessageRequest) : ServiceCall
  | image (req : ImageRequest) : ServiceCall
deriving DecidableEq

/-- The placeholder logo vector template of ai_helpers.py (the identical
f-string appears at lines 167-185 and 470-488), parameterized by the
three fill colors: outer circle, ring path, inner circle. -/
def logo_svg_shell (outerFill ringFill innerFill : String) : String :=
  "<svg xmlns=\"http://www.w3.org/2000/svg\" viewBox=\"0 0 200 200\" width=\"200\" height=\"200\">\n        <circle cx=\"100\" cy=\"100\" r=\"80\" fill=\"" ++ outerFill ++
  "\"/>\n        <path d=\"M100 30C61.34 30 30 61.34 30 100C30 138.66 61.34 170 100 170C138.66 170 170 138.66 170 100C170 61.34 138.66 30 100 30ZM100 150C67.77 150 42 124.23 42 92C42 59.77 67.77 34 100 34C132.23 34 158 59.77 158 92C158 124.23 132.23 150 100 150Z\" fill=\"" ++ ringFill ++
  "\"/>\n        <circle cx=\"100\" cy=\"100\" r=\"30\" fill=\"" ++ innerFill ++
  "\"/>\n    </svg>"

/-- The `primary_svg` f-string: outer = primary, ring = secondary,
inner = accent. -/
def primary_svg (primary_color secondary_color accent_color : String) : String :=
  logo_svg_shell primary_color secondary_color accent_color

/-- The `monochrome_svg` f-string: fixed grays. -/
def monochrome_svg : String := logo_svg_shell "#333333" "#666666" "#FFFFFF"

/-- The `reverse_svg` f-string: outer = accent, ring = accent,
inner = primary. -/
def reverse_svg (primary_color accent_color : String) : String :=
  logo_svg_shell accent_color accent_color primary_color

/-- One step of the color-extraction loop shared by `generate_logo_svgs`
(lines 157-163) and `regenerate_logo` (lines 440-446): each swatch may
overwrite the running primary/secondary/accent triple; the `.get("hex",
current)` default refers to the current accumulator value. -/
def pickPalette (acc : String × String × String) (c : ColorSwatch) :
    String × String × String :=
  if c.type = some "primary" then (c.hex.getD acc.1, acc.2.1, acc.2.2)
  else if c.type = some "secondary" then (acc.1, c.hex.getD acc.2.1, acc.2.2)
  else if c.type = some "accent" then (acc.1, acc.2.1, c.hex.getD acc.2.2)
  else acc

/-- The color-extraction loop with its defaults: default blue, default
orange, default white. -/
def extractPalette (colors : List ColorSwatch) : String × String × String :=
  colors.foldl pickPalette ("#1E40AF", "#F97316", "#FFFFFF")

/-- String-valued field of a JSON color object. -/
def swatchField (fields : List (String × Json)) (key : String) : Option String :=
  match fields.lookup key with
  | some (.str s) => some s
  | _ => none

/-- The iteration semantics of `for color in colors: color.get(...)`
when `colors` came straight from `json.loads`: a list of objects yields
swatches; an empty dict or empty string iterates zero times; anything
else raises (`TypeError`/`AttributeError`), embedded as `none`. -/
def iterColorDicts : Json → Option (List ColorSwatch)
  | .arr elems => elems.mapM fun e =>
      match e with
      | .obj fields =>
        some { name := swatchField fields "name", hex := swatchField fields "hex",
               type := swatchField fields "type" }
      | _ => none
  | .obj [] => some []
  | .str s => if s = "" then some [] else none
  | _ => none

/-- Embedding of `generate_logo_svgs` (ai_helpers.py lines 143-193).
Python raises inside the extraction loop on malformed raw-JSON color
entries; the embedding surfaces the same failure via `iterColorDicts`
before building the SVG set. It returns the one-key dict
`\x7b"logo": \x7b"primary", "monochrome", "reverse"\x7d\x7d`. -/
def generate_logo_svgs (brand_name industry description design_style : String)
    (logo_description : Json) (colors : Json) : Except GenError Json :=
  match iterColorDicts colors with
  | none => .error .typeError
  | some swatches =>
    let p := extractPalette swatches
    .ok (Json.obj [("logo", Json.obj
      [("primary", .str (primary_svg p.1 p.2.1 p.2.2)),
       ("monochrome", .str monochrome_svg),
       ("reverse", .str (reverse_svg p.1 p.2.2))])])

/- Prompt construction (the f-strings of ai_helpers.py, transcribed with
   their exact leading whitespace; braces are written \x7b/\x7d and
   apostrophes \x27). -/

/-- Everything of the `generate_brand_concept` prompt (lines 42-51) that
precedes the interpolated seed. -/
def concept_prompt_head (brand_name industry description value_text
    design_style color_text : String) : String :=
  "\n    You are a professional brand designer tasked with creating a comprehensive brand identity for:\n    \n    Brand Name: " ++ brand_name ++
  "\n    Industry: " ++ industry ++
  "\n    Description: " ++ description ++
  "\n    Values: " ++ value_text ++
  "\n    Design Style: " ++ design_style ++
  "\n    Color Preferences: " ++ color_text ++
  "\n    Seed: "

/-- Everything of the `generate_brand_concept` prompt (lines 51-102)
after the interpolated seed. -/
def concept_prompt_tail : String :=
  "\n    \n    Create a complete brand identity package with the following components:\n    \n    1. COLOR PALETTE\n    - Select 4-5 colors that reflect the brand\x27s personality\n    - Include primary, secondary, accent, and base colors with HEX codes\n    - Choose colors that work well together and align with the brand values\n    \n    2. TYPOGRAPHY\n    - Recommend appropriate heading and body fonts\n    - Choose fonts that reflect the brand\x27s personality and are practical for various applications\n    \n    3. LOGO CONCEPT\n    - Describe a logo design that captures the brand essence\n    - The logo should be memorable, distinctive, and aligned with the brand values\n    \n    4. TAGLINE\n    - Create a concise, memorable tagline that communicates the brand\x27s value proposition\n    \n    5. BRAND VOICE\n    - Define the tone and personality for brand communications\n    - Include sample contact information for consistency\n    \n    Format your response as a structured JSON object with these exact keys:\n    \x7b\n        \"logo\": \x7b\n            \"primary\": \"<placeholder>\",\n            \"monochrome\": \"<placeholder>\",\n            \"reverse\": \"<placeholder>\"\n        \x7d,\n        \"colors\": [\n            \x7b \"name\": \"Color Name\", \"hex\": \"#HEXCODE\", \"type\": \"primary\" \x7d,\n            \x7b \"name\": \"Color Name\", \"hex\": \"#HEXCODE\", \"type\": \"secondary\" \x7d,\n            \x7b \"name\": \"Color Name\", \"hex\": \"#HEXCODE\", \"type\": \"accent\" \x7d,\n            \x7b \"name\": \"Color Name\", \"hex\": \"#HEXCODE\", \"type\": \"base\" \x7d\n        ],\n        \"typography\": \x7b\n            \"headings\": \"Font Name\",\n            \"body\": \"Font Name\"\n        \x7d,\n        \"logoDescription\": \"Detailed description of the logo\",\n        \"tagline\": \"Brand tagline\",\n        \"contactName\": \"Contact person name\",\n        \"contactTitle\": \"Contact person title\",\n        \"contactPhone\": \"Phone number\",\n        \"address\": \"Business address\",\n        \"mockups\": []\n    \x7d\n    \n    Return only valid JSON - no explanations, comments, or additional formatting.\n    "

/-- The full `generate_brand_concept` prompt: the seed is interpolated
between prefix and suffix. -/
def concept_prompt (brand_name industry description value_text design_style
    color_text : String) (seed : Nat) : String :=
  concept_prompt_head brand_name industry description value_text design_style color_text ++
    toString seed ++ concept_prompt_tail

/-- The system directive of `generate_brand_concept` (line 109). -/
def concept_system : String :=
  "You are an expert brand identity designer with 20+ years of experience. Your designs are unique, creative, and perfectly tailored to each client\x27s needs. You output only valid JSON with no additional text."

/-- The `regenerate_colors` prompt (lines 322-346). -/
def colors_prompt (brand_name industry description values_text design_style : String) :
    String :=
  "\n    You are a color expert. Generate a fresh, distinctive color palette for the following brand:\n    \n    Brand Name: " ++ brand_name ++
  "\n    Industry: " ++ industry ++
  "\n    Description: " ++ description ++
  "\n    Values: " ++ values_text ++
  "\n    Design Style: " ++ design_style ++
  "\n    \n    Create a harmonious color palette with exactly 4 colors:\n    1. A primary brand color\n    2. A secondary color that complements the primary\n    3. An accent color that creates visual interest\n    4. A base/background color\n    \n    Respond ONLY with a JSON array of color objects in this exact format:\n    [\n        \x7b \"name\": \"Descriptive Color Name\", \"hex\": \"#HEXCODE\", \"type\": \"primary\" \x7d,\n        \x7b \"name\": \"Descriptive Color Name\", \"hex\": \"#HEXCODE\", \"type\": \"secondary\" \x7d,\n        \x7b \"name\": \"Descriptive Color Name\", \"hex\": \"#HEXCODE\", \"type\": \"accent\" \x7d,\n        \x7b \"name\": \"Descriptive Color Name\", \"hex\": \"#HEXCODE\", \"type\": \"base\" \x7d\n    ]\n    \n    Each color needs a creative, descriptive name and an accurate hex code. No additional text.\n    "

/-- The system directive of `regenerate_colors` (line 353). -/
def colors_system : String :=
  "You are a professional color designer who specializes in brand color palettes. Output only valid JSON with no additional text."

/-- The `regenerate_typography` prompt (lines 381-404). -/
def typography_prompt (brand_name industry description values_text design_style
    colors_text : String) : String :=
  "\n    You are a typography expert. Select the perfect font pairing for the following brand:\n    \n    Brand Name: " ++ brand_name ++
  "\n    Industry: " ++ industry ++
  "\n    Description: " ++ description ++
  "\n    Values: " ++ values_text ++
  "\n    Design Style: " ++ design_style ++
  "\n    Brand Colors: " ++ colors_text ++
  "\n    \n    Recommend two fonts:\n    1. A heading font that captures the brand\x27s personality\n    2. A body text font that is highly readable and complements the heading font\n    \n    Choose fonts that are widely available and appropriate for the brand\x27s character.\n    \n    Respond ONLY with a JSON object in this exact format:\n    \x7b\n        \"headings\": \"Heading Font Name\",\n        \"body\": \"Body Font Name\"\n    \x7d\n    \n    No additional text or explanation.\n    "

/-- The system directive of `regenerate_typography` (line 411). -/
def typography_system : String :=
  "You are a professional typography designer who specializes in brand font selection. Output only valid JSON with no additional text."

/-- The `regenerate_logo` prompt (lines 449-464); built and then never
used, since the Replicate call is not implemented. -/
def regen_logo_prompt (brand_name industry description values_text design_style
    primary_color secondary_color accent_color : String) : String :=
  "\n    Design a professional, modern logo for " ++ brand_name ++
  ".\n    Industry: " ++ industry ++
  "\n    Description: " ++ description ++
  "\n    Values: " ++ values_text ++
  "\n    Style: " ++ design_style ++
  "\n    \n    Use these exact colors in the design:\n    - Primary color: " ++ primary_color ++
  "\n    - Secondary color: " ++ secondary_color ++
  "\n    - Accent color: " ++ accent_color ++
  "\n    \n    Create a clean, memorable, and scalable logo that works well at different sizes.\n    The logo should have a distinctive shape and avoid using complex details.\n    Do not include any text in the logo design itself.\n    "

/-- The `regenerate_tagline` prompt (lines 502-518). -/
def tagline_prompt (brand_name industry description values_text design_style : String) :
    String :=
  "\n    You are a tagline expert. Create a memorable tagline for the following brand:\n    \n    Brand Name: " ++ brand_name ++
  "\n    Industry: " ++ industry ++
  "\n    Description: " ++ description ++
  "\n    Values: " ++ values_text ++
  "\n    Design Style: " ++ design_style ++
  "\n    \n    Create a concise, memorable tagline that:\n    - Captures the brand\x27s essence and value proposition\n    - Is no more than 5-7 words\n    - Is unique and distinctive\n    - Aligns with the brand values\n    \n    Respond with ONLY the tagline itself as a plain text string. No quotation marks, no explanations.\n    "

/-- The system directive of `regenerate_tagline` (line 525). -/
def tagline_system : String :=
  "You are a professional brand strategist who specializes in creating memorable taglines. Return only the tagline with no additional text."

/-- Embedding of `generate_brand_concept` (ai_helpers.py lines 11-141).
The `random.randint(1000, 9999)` seed is an explicit argument. Note
that on the success path the parsed concept object is replaced wholesale
by the return value of `generate_logo_svgs` (line 130 rebinds
`brand_output`). -/
def generate_brand_concept (brand_input : BrandInput) (anthropic_client : TextClient)
    (seed : Nat) : Except GenError Json × List ServiceCall :=
  let brand_name := brand_input.brandName.getD ""
  let industry := brand_input.industry.getD ""
  let description := brand_input.description.getD ""
  let values := brand_input.values.getD []
  let design_style := brand_input.designStyle.getD "modern"
  let color_preferences := brand_input.colorPreferences.getD []
  let value_text :=
    if values.isEmpty then "Quality, Innovation, Reliability"
    else String.intercalate ", " (values.map (·.value))
  let color_text :=
    if color_preferences.isEmpty then "Open to suggestions"
    else String.intercalate ", " color_preferences
  let prompt := concept_prompt brand_name industry description value_text design_style
    color_text seed
  let req : MessageRequest :=
    { model := "claude-3-7-sonnet-20250219", max_tokens := 4000, temperature := "0.7",
      system := concept_system, messages := [{ role := "user", content := prompt }] }
  let response := anthropic_client req
  let result : Except GenError Json :=
    match response.content.head? with
    | none => .error .indexError
    | some block =>
      if block.type = "text" then
        if block.text = "" then .error .emptyResponse
        else
          match extract_and_parse extractBraceSpan block.text with
          | .error e => .error e
          | .ok brand_output =>
            match brand_output.getD "logoDescription" (.str "") with
            | none => .error .attributeError
            | some logo_description =>
              match brand_output.getD "colors" (.arr []) with
              | none => .error .attributeError
              | some colorsJson =>
                generate_logo_svgs brand_name industry description design_style
                  logo_description colorsJson
      else .error .unexpectedFormat
  (result, [.text req])

/-- Embedding of `regenerate_colors` (lines 316-370): one text-service
call, bracket-span extraction. -/
def regenerate_colors (brand_name industry description : String)
    (values : List BrandValue) (design_style : String)
    (anthropic_client : TextClient) : Except GenError Json × List ServiceCall :=
  let values_text :=
    if values.isEmpty then "" else String.intercalate ", " (values.map (·.value))
  let prompt := colors_prompt brand_name industry description values_text design_style
  let req : MessageRequest :=
    { model := "claude-3-7-sonnet-20250219", max_tokens := 1000, temperature := "0.7",
      system := colors_system, messages := [{ role := "user", content := prompt }] }
  let response := anthropic_client req
  let result : Except GenError Json :=
    match response.content.head? with
    | none => .error .indexError
    | some block =>
      if block.type = "text" then
        if block.text = "" then .error .emptyResponse
        else extract_and_parse extractBracketSpan block.text
      else .error .unexpectedFormat
  (result, [.text req])

/-- Embedding of `regenerate_typography` (lines 372-428): one
text-service call, brace-span extraction; the existing palette is
rendered into the prompt as context (a missing name/hex renders as
Python `None`). -/
def regenerate_typography (brand_name industry description : String)
    (values : List BrandValue) (design_style : String)
    (existing_colors : List ColorSwatch) (anthropic_client : TextClient) :
    Except GenError Json × List ServiceCall :=
  let values_text :=
    if values.isEmpty then "" else String.intercalate ", " (values.map (·.value))
  let colors_text :=
    if existing_colors.isEmpty then ""
    else String.intercalate ", " (existing_colors.map fun c =>
      c.name.getD "None" ++ " (" ++ c.hex.getD "None" ++ ")")
  let prompt := typography_prompt brand_name industry description values_text
    design_style colors_text
  let req : MessageRequest :=
    { model := "claude-3-7-sonnet-20250219", max_tokens := 1000, temperature := "0.7",
      system := typography_system, messages := [{ role := "user", content := prompt }] }
  let response := anthropic_client req
  let result : Except GenError Json :=
    match response.content.head? with
    | none => .error .indexError
    | some block =>
      if block.type = "text" then
        if block.text = "" then .error .emptyResponse
        else extract_and_parse extractBraceSpan block.text
      else .error .unexpectedFormat
  (result, [.text req])

/-- Embedding of `regenerate_logo` (lines 430-494): builds a Replicate
prompt but never invokes the image service; always returns the
three-variant placeholder set derived from the existing palette. -/
def regenerate_logo (brand_name industry description : String)
    (values : List BrandValue) (design_style : String)
    (existing_colors : List ColorSwatch) (replicate_client : ImageClient) : Json :=
  let values_text :=
    if values.isEmpty then "" else String.intercalate ", " (values.map (·.value))
  let p := extractPalette existing_colors
  let prompt := regen_logo_prompt brand_name industry description values_text
    design_style p.1 p.2.1 p.2.2
  Json.obj [("primary", .str (primary_svg p.1 p.2.1 p.2.2)),
            ("monochrome", .str monochrome_svg),
            ("reverse", .str (reverse_svg p.1 p.2.2))]

/-- Embedding of `regenerate_tagline` (lines 496-537): one text-service
call; the reply text is stripped and returned as a bare string. -/
def regenerate_tagline (brand_name industry description : String)
    (values : List BrandValue) (design_style : String)
    (anthropic_client : TextClient) : Except GenError Json × List ServiceCall :=
  let values_text :=
    if values.isEmpty then "" else String.intercalate ", " (values.map (·.value))
  let prompt := tagline_prompt brand_name industry description values_text design_style
  let req : MessageRequest :=
    { model := "claude-3-7-sonnet-20250219", max_tokens := 100, temperature := "0.7",
      system := tagline_system, messages := [{ role := "user", content := prompt }] }
  let response := anthropic_client req
  let result : Except GenError Json :=
    match response.content.head? with
    | none => .error .indexError
    | some block =>
      if block.type = "text" then
        let tagline := block.text.trim
        if tagline = "" then .error .emptyResponse
        else .ok (.str tagline)
      else .error .unexpectedFormat
  (result, [.text req])

/-- The brandOutput dict of a stored concept as the dispatcher sees it;
only `colors` is ever read by ai_helpers, the rest is carried opaquely. -/
structure BrandOutputRec where
  logo : Option Json
  colors : Option (List ColorSwatch)
  typography : Option Json
  logoDescription : Option String
  tagline : Option String

/-- A stored brand-concept dict as passed to `regenerate_element`. -/
structure ConceptDict where
  id : Option Nat
  projectId : Option Nat
  name : Option String
  brandInputs : Option BrandInput
  brandOutput : Option BrandOutputRec

/-- The empty dict default of `concept.get("brandInputs", \x7b\x7d)`. -/
def emptyBrandInput : BrandInput := ⟨none, none, none, none, none, none⟩

/-- The empty dict default of `concept.get("brandOutput", \x7b\x7d)`. -/
def emptyBrandOutput : BrandOutputRec := ⟨none, none, none, none, none⟩

/-- Embedding of `regenerate_element` (ai_helpers.py lines 249-314): the
facet dispatcher. -/
def regenerate_element (concept : ConceptDict) (element_type : String)
    (anthropic_client : TextClient) (replicate_client : ImageClient) :
    Except GenError Json × List ServiceCall :=
  let brand_inputs := concept.brandInputs.getD emptyBrandInput
  let brand_output := concept.brandOutput.getD emptyBrandOutput
  let brand_name := brand_inputs.brandName.getD ""
  let industry := brand_inputs.industry.getD ""
  let description := brand_inputs.description.getD ""
  let values := brand_inputs.values.getD []
  let design_style := brand_inputs.designStyle.getD "modern"
  if element_type = "colors" then
    regenerate_colors brand_name industry description values design_style anthropic_client
  else if element_type = "typography" then
    regenerate_typography brand_name industry description values design_style
      (brand_output.colors.getD []) anthropic_client
  else if element_type = "logo" then
    (.ok (regenerate_logo brand_name industry description values design_style
      (brand_output.colors.getD []) replicate_client), [])
  else if element_type = "tagline" then
    regenerate_tagline brand_name industry description values design_style anthropic_client
  else
    (.error (.valueError ("Unsupported element type: " ++ element_type)), [])

/- Embedding of src/storage.py (class MemStorage). Python dicts keyed by
   integer id are embedded as functions `Nat → Option _`. -/

/-- A stored user row. -/
structure StoredUser where
  id : Nat
  username : String
  password : String

/-- A stored project row. -/
structure StoredProject where
  id : Nat
  name : String
  clientName : Option String
  userId : Nat
  createdAt : String

/-- A stored brand-concept row. The brandInputs/brandOutput payloads are
carried opaquely as JSON values (storage.py never inspects them). -/
structure StoredConcept where
  id : Nat
  projectId : Nat
  name : String
  isActive : Bool
  brandInputs : Json
  brandOutput : Json
  createdAt : String

/-- The MemStorage state. -/
structure MemStorage where
  users : Nat → Option StoredUser
  projects : Nat → Option StoredProject
  brand_concepts : Nat → Option StoredConcept
  user_id_counter : Nat
  project_id_counter : Nat
  concept_id_counter : Nat

/-- Embedding of `MemStorage.get_project`. -/
def get_project (s : MemStorage) (id : Nat) : Option StoredProject := s.projects id

/-- Embedding of `MemStorage.get_brand_concept`. -/
def get_brand_concept (s : MemStorage) (id : Nat) : Option StoredConcept :=
  s.brand_concepts id

/-- Embedding of `MemStorage.create_user`. -/
def create_user (s : MemStorage) (username password : String) :
    StoredUser × MemStorage :=
  let id := s.user_id_counter
  let user : StoredUser := { id, username, password }
  (user, { s with
    user_id_counter := id + 1,
    users := fun uid => if uid = id then some user else s.users uid })

/-- The project_data dict accepted by `create_project`; an absent or
null clientName both store null. -/
structure ProjectData where
  name : String
  clientName : Option String
  userId : Nat

/-- Embedding of `MemStorage.create_project` (storage.py lines 161-177);
`datetime.now().isoformat()` is the explicit `now` argument. -/
def create_project (s : MemStorage) (project_data : ProjectData) (now : String) :
    StoredProject × MemStorage :=
  let id := s.project_id_counter
  let project : StoredProject :=
    { id, name := project_data.name, clientName := project_data.clientName,
      userId := project_data.userId, createdAt := now }
  (project, { s with
    project_id_counter := id + 1,
    projects := fun pid => if pid = id then some project else s.projects pid })

/-- Embedding of `MemStorage.delete_project` (storage.py lines 189-204):
first the cascade deletes every concept of the project, then the project
itself is deleted if present. -/
def delete_project (s : MemStorage) (id : Nat) : Bool × MemStorage :=
  let remaining : Nat → Option StoredConcept := fun cid =>
    match s.brand_concepts cid with
    | some c => if c.projectId = id then none else some c
    | none => none
  let s1 : MemStorage := { s with brand_concepts := remaining }
  match s1.projects id with
  | some _ =>
    (true, { s1 with projects := fun pid => if pid = id then none else s1.projects pid })
  | none => (false, s1)

/-- Embedding of `MemStorage.set_active_brand_concept` (storage.py lines
263-279): deactivate every concept of `project_id` other than `id`, then
activate concept `id` when it exists. The Python `try/except` cannot
fire on this well-typed state, so the returned flag is always `true`. -/
def set_active_brand_concept (s : MemStorage) (id project_id : Nat) :
    Bool × MemStorage :=
  let deactivated : Nat → Option StoredConcept := fun cid =>
    match s.brand_concepts cid with
    | some c =>
      if c.projectId = project_id ∧ cid ≠ id then some { c with isActive := false }
      else some c
    | none => none
  let final : Nat → Option StoredConcept := fun cid =>
    if cid = id then (deactivated cid).map fun c => { c with isActive := true }
    else deactivated cid
  (true, { s with brand_concepts := final })

/-- The concept_data dict accepted by `create_brand_concept`; isActive
may be absent (normalized to false). -/
structure ConceptData where
  projectId : Nat
  name : String
  isActive : Option Bool
  brandInputs : Json
  brandOutput : Json

/-- Embedding of `MemStorage.create_brand_concept` (storage.py lines
218-239): insert under the fresh counter id, then, when the concept is
set active, deactivate all other concepts of its project. -/
def create_brand_concept (s : MemStorage) (concept_data : ConceptData) (now : String) :
    StoredConcept × MemStorage :=
  let id := s.concept_id_counter
  let isActive := concept_data.isActive.getD false
  let concept : StoredConcept :=
    { id, projectId := concept_data.projectId, name := concept_data.name, isActive,
      brandInputs := concept_data.brandInputs, brandOutput := concept_data.brandOutput,
      createdAt := now }
  let s1 : MemStorage := { s with
    concept_id_counter := id + 1,
    brand_concepts := fun cid => if cid = id then some concept else s.brand_concepts cid }
  if isActive then (concept, (set_active_brand_concept s1 id concept_data.projectId).2)
  else (concept, s1)

/-- The partial_concept dict accepted by `update_brand_concept`: every
field optional; a present field overwrites the stored one (`\x7b**concept,
**partial_concept\x7d`). -/
structure ConceptPatch where
  projectId : Option Nat
  name : Option String
  isActive : Option Bool
  brandInputs : Option Json
  brandOutput : Option Json

/-- Embedding of `MemStorage.update_brand_concept` (storage.py lines
241-254): merge the patch over the stored row; when the patch sets
isActive truthy, deactivate the siblings via `set_active_brand_concept`
called with the concept's pre-update projectId. -/
def update_brand_concept (s : MemStorage) (id : Nat) (partial_concept : ConceptPatch) :
    Option StoredConcept × MemStorage :=
  match s.brand_concepts id with
  | none => (none, s)
  | some concept =>
    let updated_concept : StoredConcept :=
      { id := concept.id,
        projectId := partial_concept.projectId.getD concept.projectId,
        name := partial_concept.name.getD concept.name,
        isActive := partial_concept.isActive.getD concept.isActive,
        brandInputs := partial_concept.brandInputs.getD concept.brandInputs,
        brandOutput := partial_concept.brandOutput.getD concept.brandOutput,
        createdAt := concept.createdAt }
    let s1 : MemStorage := { s with
      brand_concepts := fun cid => if cid = id then some updated_concept else s.brand_concepts cid }
    if partial_concept.isActive.getD false ∧ updated_concept.isActive then
      (some updated_concept, (set_active_brand_concept s1 id concept.projectId).2)
    else (some updated_concept, s1)

/-- Embedding of `MemStorage.delete_brand_concept` (lines 256-261). -/
def delete_brand_concept (s : MemStorage) (id : Nat) : Bool × MemStorage :=
  match s.brand_concepts id with
  | some _ =>
    (true, { s with brand_concepts := fun cid => if cid = id then none else s.brand_concepts cid })
  | none => (false, s)

/- The demo data installed by `MemStorage.__init__` (storage.py lines
   8-127), transcribed verbatim. -/

/-- Demo primary logo SVG of the Solystra concept (line 61). -/
def solystra_logo_primary : String :=
  "<svg xmlns=\"http://www.w3.org/2000/svg\" viewBox=\"0 0 200 200\" width=\"200\" height=\"200\"><circle cx=\"100\" cy=\"100\" r=\"80\" fill=\"#1E40AF\"/><path d=\"M100 30C61.34 30 30 61.34 30 100C30 138.66 61.34 170 100 170C138.66 170 170 138.66 170 100C170 61.34 138.66 30 100 30ZM100 150C67.77 150 42 124.23 42 92C42 59.77 67.77 34 100 34C132.23 34 158 59.77 158 92C158 124.23 132.23 150 100 150Z\" fill=\"#F97316\"/><circle cx=\"100\" cy=\"100\" r=\"30\" fill=\"#FFFFFF\"/></svg>"

/-- Demo monochrome logo SVG of the Solystra concept (line 62). -/
def solystra_logo_monochrome : String :=
  "<svg xmlns=\"http://www.w3.org/2000/svg\" viewBox=\"0 0 200 200\" width=\"200\" height=\"200\"><circle cx=\"100\" cy=\"100\" r=\"80\" fill=\"#333333\"/><path d=\"M100 30C61.34 30 30 61.34 30 100C30 138.66 61.34 170 100 170C138.66 170 170 138.66 170 100C170 61.34 138.66 30 100 30ZM100 150C67.77 150 42 124.23 42 92C42 59.77 67.77 34 100 34C132.23 34 158 59.77 158 92C158 124.23 132.23 150 100 150Z\" fill=\"#666666\"/><circle cx=\"100\" cy=\"100\" r=\"30\" fill=\"#FFFFFF\"/></svg>"

/-- Demo reverse logo SVG of the Solystra concept (line 63). -/
def solystra_logo_reverse : String :=
  "<svg xmlns=\"http://www.w3.org/2000/svg\" viewBox=\"0 0 200 200\" width=\"200\" height=\"200\"><circle cx=\"100\" cy=\"100\" r=\"80\" fill=\"#FFFFFF\"/><path d=\"M100 30C61.34 30 30 61.34 30 100C30 138.66 61.34 170 100 170C138.66 170 170 138.66 170 100C170 61.34 138.66 30 100 30ZM100 150C67.77 150 42 124.23 42 92C42 59.77 67.77 34 100 34C132.23 34 158 59.77 158 92C158 124.23 132.23 150 100 150Z\" fill=\"#FFFFFF\"/><circle cx=\"100\" cy=\"100\" r=\"30\" fill=\"#1E40AF\"/></svg>"

/-- Demo brandInputs of the Solystra concept (lines 47-58). -/
def solystra_brand_inputs : Json :=
  .obj [("brandName", .str "Solystra"),
        ("industry", .str "Renewable Energy"),
        ("description", .str "A cutting-edge renewable energy company focused on solar solutions"),
        ("values", .arr [.obj [("id", .str "1"), ("value", .str "Sustainability")],
                         .obj [("id", .str "2"), ("value", .str "Innovation")],
                         .obj [("id", .str "3"), ("value", .str "Reliability")]]),
        ("designStyle", .str "modern"),
        ("colorPreferences", .arr [.str "blue", .str "orange", .str "white"])]

/-- Demo brandOutput of the Solystra concept (lines 59-82). -/
def solystra_brand_output : Json :=
  .obj [("logo", .obj [("primary", .str solystra_logo_primary),
                       ("monochrome", .str solystra_logo_monochrome),
                       ("reverse", .str solystra_logo_reverse)]),
        ("colors", .arr [
          .obj [("name", .str "Primary Blue"), ("hex", .str "#1E40AF"), ("type", .str "primary")],
          .obj [("name", .str "Energy Orange"), ("hex", .str "#F97316"), ("type", .str "secondary")],
          .obj [("name", .str "Pure White"), ("hex", .str "#FFFFFF"), ("type", .str "accent")],
          .obj [("name", .str "Deep Navy"), ("hex", .str "#0F172A"), ("type", .str "base")]]),
        ("typography", .obj [("headings", .str "Montserrat"), ("body", .str "Open Sans")]),
        ("logoDescription", .str "A modern and bold logo representing solar energy and innovation"),
        ("tagline", .str "Powering Tomorrow\x27s World"),
        ("contactName", .str "Alex Rivera"),
        ("contactTitle", .str "Chief Innovation Officer"),
        ("contactPhone", .str "+1 (415) 555-8729"),
        ("address", .str "123 Solar Way, San Francisco, CA 94110"),
        ("mockups", .arr [])]

/-- Demo primary logo SVG of the NexGen concept (line 105). -/
def nexgen_logo_primary : String :=
  "<svg xmlns=\"http://www.w3.org/2000/svg\" viewBox=\"0 0 200 200\" width=\"200\" height=\"200\"><rect x=\"40\" y=\"40\" width=\"120\" height=\"120\" fill=\"#0A2342\" rx=\"10\" ry=\"10\"/><path d=\"M75 80L100 60L125 80L125 120L75 120L75 80Z\" fill=\"#E8C547\"/><path d=\"M85 100L115 100\" stroke=\"#20A39E\" stroke-width=\"6\" stroke-linecap=\"round\"/><path d=\"M85 110L105 110\" stroke=\"#20A39E\" stroke-width=\"6\" stroke-linecap=\"round\"/></svg>"

/-- Demo monochrome logo SVG of the NexGen concept (line 106). -/
def nexgen_logo_monochrome : String :=
  "<svg xmlns=\"http://www.w3.org/2000/svg\" viewBox=\"0 0 200 200\" width=\"200\" height=\"200\"><filter id=\"grayscale\"><feColorMatrix type=\"matrix\" values=\"0.3333 0.3333 0.3333 0 0 0.3333 0.3333 0.3333 0 0 0.3333 0.3333 0.3333 0 0 0 0 0 1 0\"/></filter><rect x=\"40\" y=\"40\" width=\"120\" height=\"120\" fill=\"#333333\" rx=\"10\" ry=\"10\"/><path d=\"M75 80L100 60L125 80L125 120L75 120L75 80Z\" fill=\"#666666\"/><path d=\"M85 100L115 100\" stroke=\"#999999\" stroke-width=\"6\" stroke-linecap=\"round\"/><path d=\"M85 110L105 110\" stroke=\"#999999\" stroke-width=\"6\" stroke-linecap=\"round\"/></svg>"

/-- Demo reverse logo SVG of the NexGen concept (line 107). -/
def nexgen_logo_reverse : String :=
  "<svg xmlns=\"http://www.w3.org/2000/svg\" viewBox=\"0 0 200 200\" width=\"200\" height=\"200\"><rect width=\"200\" height=\"200\" fill=\"#111111\"/><rect x=\"40\" y=\"40\" width=\"120\" height=\"120\" fill=\"#FFFFFF\" rx=\"10\" ry=\"10\"/><path d=\"M75 80L100 60L125 80L125 120L75 120L75 80Z\" fill=\"#111111\"/><path d=\"M85 100L115 100\" stroke=\"#444444\" stroke-width=\"6\" stroke-linecap=\"round\"/><path d=\"M85 110L105 110\" stroke=\"#444444\" stroke-width=\"6\" stroke-linecap=\"round\"/></svg>"

/-- Demo brandInputs of the NexGen concept (lines 90-102). -/
def nexgen_brand_inputs : Json :=
  .obj [("brandName", .str "NexGen Fintech"),
        ("industry", .str "Financial Technology"),
        ("description", .str "A revolutionary fintech platform that simplifies banking and investments"),
        ("values", .arr [.obj [("id", .str "1"), ("value", .str "Security")],
                         .obj [("id", .str "2"), ("value", .str "Innovation")],
                         .obj [("id", .str "3"), ("value", .str "Accessibility")],
                         .obj [("id", .str "4"), ("value", .str "Transparency")]]),
        ("designStyle", .str "minimalist"),
        ("colorPreferences", .arr [.str "navy", .str "gold", .str "teal"])]

/-- Demo brandOutput of the NexGen concept (lines 103-126). -/
def nexgen_brand_output : Json :=
  .obj [("logo", .obj [("primary", .str nexgen_logo_primary),
                       ("monochrome", .str nexgen_logo_monochrome),
                       ("reverse", .str nexgen_logo_reverse)]),
        ("colors", .arr [
          .obj [("name", .str "Navy Blue"), ("hex", .str "#0A2342"), ("type", .str "primary")],
          .obj [("name", .str "Gold"), ("hex", .str "#E8C547"), ("type", .str "secondary")],
          .obj [("name", .str "Teal"), ("hex", .str "#20A39E"), ("type", .str "accent")],
          .obj [("name", .str "Charcoal"), ("hex", .str "#222222"), ("type", .str "base")]]),
        ("typography", .obj [("headings", .str "Poppins"), ("body", .str "Roboto")]),
        ("logoDescription", .str "A minimalist logo representing security and financial growth"),
        ("tagline", .str "Banking for the Digital Age"),
        ("contactName", .str "Jordan Chen"),
        ("contactTitle", .str "Director of Client Relations"),
        ("contactPhone", .str "+1 (415) 555-2390"),
        ("address", .str "485 Financial District Ave, San Francisco, CA 94104"),
        ("mockups", .arr [])]

/-- The empty stores before `__init__` fills them. -/
def empty_mem_storage : MemStorage :=
  { users := fun _ => none, projects := fun _ => none, brand_concepts := fun _ => none,
    user_id_counter := 1, project_id_counter := 1, concept_id_counter := 1 }

/-- Embedding of `MemStorage.__init__` (storage.py lines 8-127): demo
user, two sample projects assigned directly, and two sample brand
concepts created through `create_brand_concept` with isActive = true.
Every `datetime.now()` reading is the `now` argument. -/
def init_storage (now : String) : MemStorage :=
  let s1 := (create_user empty_mem_storage "demo" "demo123").2
  let project1 : StoredProject :=
    { id := 1, name := "Solystra", clientName := some "Sample Client", userId := 1,
      createdAt := now }
  let s2 := { s1 with projects := fun pid => if pid = 1 then some project1 else s1.projects pid }
  let project2 : StoredProject :=
    { id := 2, name := "NexGen Fintech", clientName := some "Financial Innovations Inc.",
      userId := 1, createdAt := now }
  let s3 := { s2 with
    projects := fun pid => if pid = 2 then some project2 else s2.projects pid,
    project_id_counter := 3 }
  let s4 := (create_brand_concept s3
    { projectId := 1, name := "Initial Concept", isActive := some true,
      brandInputs := solystra_brand_inputs, brandOutput := solystra_brand_output } now).2
  (create_brand_concept s4
    { projectId := 2, name := "Financial Tech Concept", isActive := some true,
      brandInputs := nexgen_brand_inputs, brandOutput := nexgen_brand_output } now).2

/- Concrete fixtures used by the claim theorems below. -/

/-- Does `pat` start `s`? -/
def startsWithList : List Char → List Char → Bool
  | [], _ => true
  | _ :: _, [] => false
  | p :: ps, c :: cs => p = c && startsWithList ps cs

/-- Does `pat` occur as a contiguous substring of `text`? -/
def containsSub (pat text : List Char) : Bool :=
  match text with
  | [] => startsWithList pat []
  | _ :: cs => startsWithList pat text || containsSub pat cs

/-- A well-formed model reply carrying every key the prompt asks for. -/
def sample_reply : String :=
  "\x7b\"logo\": \x7b\"primary\": \"\", \"monochrome\": \"\", \"reverse\": \"\"\x7d, \"colors\": [\x7b\"name\": \"Sky\", \"hex\": \"#1E40AF\", \"type\": \"primary\"\x7d, \x7b\"name\": \"Sun\", \"hex\": \"#F97316\", \"type\": \"secondary\"\x7d, \x7b\"name\": \"Snow\", \"hex\": \"#FFFFFF\", \"type\": \"accent\"\x7d, \x7b\"name\": \"Navy\", \"hex\": \"#0F172A\", \"type\": \"base\"\x7d], \"typography\": \x7b\"headings\": \"Montserrat\", \"body\": \"Open Sans\"\x7d, \"logoDescription\": \"A sun disc\", \"tagline\": \"Power the day\"\x7d"

/-- A text-service stub that always answers with `sample_reply`. -/
def sample_client : TextClient := fun _ => ⟨[⟨"text", sample_reply⟩]⟩

/-- A text-service stub whose reply is bare JSON with no brace in it. -/
def bare_number_client : TextClient := fun _ => ⟨[⟨"text", "42"⟩]⟩

/-- An image-service stub that always fails. -/
def failing_image_client : ImageClient := fun _ => .error "service down"

/-- A brand input with only the brand name present. -/
def solystra_input : BrandInput :=
  { brandName := some "Solystra", industry := some "Renewable Energy",
    description := none, values := none, designStyle := some "modern",
    colorPreferences := none }

/-- A brand input carrying only a brand name. -/
def bare_name_input : BrandInput := ⟨some "Acme", none, none, none, none, none⟩

/-- Data of a third demo concept, inactive, in project 1. -/
def third_concept_data : ConceptData :=
  { projectId := 1, name := "Third", isActive := some false,
    brandInputs := .obj [], brandOutput := .obj [] }

/-- Demo storage with the extra inactive concept 3 in project 1. -/
def storage_with_third : MemStorage :=
  (create_brand_concept (init_storage "t") third_concept_data "t").2

/-- The stored row of demo concept 1 (active, project 1). -/
def initial_concept_row : StoredConcept :=
  { id := 1, projectId := 1, name := "Initial Concept", isActive := true,
    brandInputs := solystra_brand_inputs, brandOutput := solystra_brand_output,
    createdAt := "t" }

/-- The stored row of concept 3 right after its inactive creation. -/
def third_concept_row_inactive : StoredConcept :=
  { id := 3, projectId := 1, name := "Third", isActive := false,
    brandInputs := .obj [], brandOutput := .obj [], createdAt := "t" }

/-- The stored row of concept 3 once activated. -/
def third_concept_row_active : StoredConcept :=
  { id := 3, projectId := 1, name := "Third", isActive := true,
    brandInputs := .obj [], brandOutput := .obj [], createdAt := "t" }

/-- A sample stored palette. -/
def sample_swatches : List ColorSwatch :=
  [{ name := some "Sky", hex := some "#1E40AF", type := some "primary" }]

/-- Sample brand inputs of a stored concept. -/
def sample_concept_inputs : BrandInput := ⟨some "Acme", some "Tech", none, none, none, none⟩

/-- A stored concept dict. -/
def concept_a : ConceptDict :=
  ⟨some 7, some 1, some "A", some sample_concept_inputs,
   some ⟨none, some sample_swatches, none, none, none⟩⟩

/-- A stored concept dict agreeing with `concept_a` on brandInputs and on
brandOutput.colors but differing everywhere else. -/
def concept_b : ConceptDict :=
  ⟨some 8, some 2, some "B", some sample_concept_inputs,
   some ⟨some (.str "other logo"), some sample_swatches, some (.obj []),
         some "other descr", some "other tagline"⟩⟩

/-- At most one brand concept of any project is active. -/
def ActiveUnique (s : MemStorage) : Prop :=
  ∀ i j ci cj, s.brand_concepts i = some ci → s.brand_concepts j = some cj →
    ci.projectId = cj.projectId → ci.isActive = true → cj.isActive = true → i = j

/-- Storage states reachable from `__init__` through the concept-side
operations, under the discipline that `set_active_brand_concept` is only
invoked with the target concept's own projectId and that updates never
change a concept's projectId. -/
inductive DisciplinedReach : MemStorage → Prop where
  | init (now : String) : DisciplinedReach (init_storage now)
  | createProject (s : MemStorage) (d : ProjectData) (now : String) :
      DisciplinedReach s → DisciplinedReach (create_project s d now).2
  | createConcept (s : MemStorage) (d : ConceptData) (now : String) :
      DisciplinedReach s → DisciplinedReach (create_brand_concept s d now).2
  | updateConcept (s : MemStorage) (id : Nat) (p : ConceptPatch)
      (hp : p.projectId = none) :
      DisciplinedReach s → DisciplinedReach (update_brand_concept s id p).2
  | setActive (s : MemStorage) (id project_id : Nat)
      (h : ∀ c, s.brand_concepts id = some c → c.projectId = project_id) :
      DisciplinedReach s → DisciplinedReach (set_active_brand_concept s id project_id).2
  | deleteConcept (s : MemStorage) (id : Nat) :
      DisciplinedReach s → DisciplinedReach (delete_brand_concept s id).2
  | deleteProject (s : MemStorage) (id : Nat) :
      DisciplinedReach s → DisciplinedReach (delete_project s id).2

/- Helper lemmas. -/

/-- Appending to a non-empty string stays non-empty. -/
theorem append_ne_empty_left (a b : String) (h : a ≠ "") : a ++ b ≠ "" := by
  intro hab
  apply h
  have h2 := congrArg String.data hab
  rw [String.data_append] at h2
  rcases List.append_eq_nil.mp h2 with ⟨ha, _⟩
  exact String.ext ha

/-- The placeholder logo template is never the empty document. -/
theorem logo_svg_shell_ne_empty (x y z : String) : logo_svg_shell x y z ≠ "" := by
  unfold logo_svg_shell
  apply append_ne_empty_left
  apply append_ne_empty_left
  apply append_ne_empty_left
  apply append_ne_empty_left
  apply append_ne_empty_left
  apply append_ne_empty_left
  decide

/-- C2: logo synthesis never fails and always returns the three-variant
logo set with non-empty vector documents: `regenerate_logo` is total for
every input and every image-service stub (including an always-failing
one) and returns exactly the keys primary, monochrome, reverse; and
`generate_logo_svgs`, on any colors value it can iterate, returns the
same three keys wrapped under "logo". -/
theorem logo_synthesis_never_fails (brand_name industry description : String)
    (values : List BrandValue) (design_style : String)
    (existing_colors : List ColorSwatch) (replicate_client : ImageClient)
    (bn2 ind2 desc2 ds2 : String) (logo_description : Json) (colors2 : Json)
    (sw : List ColorSwatch) :
    (∃ p m r, regenerate_logo brand_name industry description values design_style
        existing_colors replicate_client =
        Json.obj [("primary", .str p), ("monochrome", .str m), ("reverse", .str r)] ∧
        p ≠ "" ∧ m ≠ "" ∧ r ≠ "") ∧
    (iterColorDicts colors2 = some sw →
      ∃ p m r, generate_logo_svgs bn2 ind2 desc2 ds2 logo_description colors2 =
        .ok (Json.obj [("logo", Json.obj
          [("primary", .str p), ("monochrome", .str m), ("reverse", .str r)])]) ∧
        p ≠ "" ∧ m ≠ "" ∧ r ≠ "") := by
  constructor
  · refine ⟨_, _, _, rfl, ?_, ?_, ?_⟩
    · exact logo_svg_shell_ne_empty _ _ _
    · exact logo_svg_shell_ne_empty _ _ _
    · exact logo_svg_shell_ne_empty _ _ _
  · intro h
    unfold generate_logo_svgs
    rw [h]
    refine ⟨_, _, _, rfl, ?_, ?_, ?_⟩
    · exact logo_svg_shell_ne_empty _ _ _
    · exact logo_svg_shell_ne_empty _ _ _
    · exact logo_svg_shell_ne_empty _ _ _

/-- C2 witness: the theorem applied to a failing image service and a
concrete empty palette. -/
theorem logo_synthesis_never_fails_witness :
    ∃ p m r, generate_logo_svgs "Acme" "" "" "modern" (.str "") (.arr []) =
      .ok (Json.obj [("logo", Json.obj
        [("primary", .str p), ("monochrome", .str m), ("reverse", .str r)])]) ∧
      p ≠ "" ∧ m ≠ "" ∧ r ≠ "" :=
  (logo_synthesis_never_fails "Acme" "" "" [] "modern" [] failing_image_client
    "Acme" "" "" "modern" (.str "") (.arr []) []).2 rfl

/-- C5: a facet name outside colors/typography/logo/tagline makes
`regenerate_element` fail with the unsupported-element ValueError and
the call trace stays empty: neither generative service is invoked. -/
theorem regenerate_element_unsupported_facet (concept : ConceptDict)
    (element_type : String) (anthropic_client : TextClient)
    (replicate_client : ImageClient)
    (h1 : element_type ≠ "colors") (h2 : element_type ≠ "typography")
    (h3 : element_type ≠ "logo") (h4 : element_type ≠ "tagline") :
    regenerate_element concept element_type anthropic_client replicate_client =
      (.error (.valueError ("Unsupported element type: " ++ element_type)), []) := by
  simp [regenerate_element, h1, h2, h3, h4]

/-- C5 witness: the facet "banner" is rejected without any service call. -/
theorem regenerate_element_unsupported_facet_witness :
    regenerate_element concept_a "banner" sample_client failing_image_client =
      (.error (.valueError "Unsupported element type: banner"), []) :=
  regenerate_element_unsupported_facet concept_a "banner" sample_client
    failing_image_client (by decide) (by decide) (by decide) (by decide)

/-- C8: the placeholder path of `regenerate_logo` is deterministic and a
function of the palette alone: two calls with the same existing palette
agree byte for byte, whatever the brand name, the other brand facts or
the image-service stub. -/
theorem regenerate_logo_fallback_deterministic (bn ind desc : String)
    (values : List BrandValue) (ds : String) (existing_colors : List ColorSwatch)
    (rc : ImageClient) (bn2 ind2 desc2 : String) (values2 : List BrandValue)
    (ds2 : String) (rc2 : ImageClient) :
    regenerate_logo bn ind desc values ds existing_colors rc =
      regenerate_logo bn2 ind2 desc2 values2 ds2 existing_colors rc2 := rfl

/-- Pointwise effect of `delete_project` on the concept store: the
cascade filter runs in both the found and the not-found branch. -/
theorem delete_project_bc (s : MemStorage) (id cid : Nat) :
    (delete_project s id).2.brand_concepts cid =
      match s.brand_concepts cid with
      | some c => if c.projectId = id then none else some c
      | none => none := by
  simp only [delete_project]
  cases hp : s.projects id <;> simp

/-- The flag returned by `delete_project` is exactly project presence. -/
theorem delete_project_flag (s : MemStorage) (id : Nat) :
    (delete_project s id).1 = (s.projects id).isSome := by
  simp only [delete_project]
  cases hp : s.projects id <;> simp [hp]

/-- C10: `delete_project` deletes every concept of the project before it
checks that the project exists, so the concept cascade happens even for
an absent project id; concepts of other projects survive untouched; and
the returned flag is true exactly when the project was present. -/
theorem delete_project_cascade_before_check (s : MemStorage) (id : Nat) :
    (∀ cid c, s.brand_concepts cid = some c → c.projectId = id →
        (delete_project s id).2.brand_concepts cid = none) ∧
    (∀ cid c, s.brand_concepts cid = some c → c.projectId ≠ id →
        (delete_project s id).2.brand_concepts cid = some c) ∧
    ((delete_project s id).1 = true ↔ (s.projects id).isSome = true) := by
  refine ⟨?_, ?_, ?_⟩
  · intro cid c hc hp
    rw [delete_project_bc, hc]
    simp [hp]
  · intro cid c hc hp
    rw [delete_project_bc, hc]
    simp [hp]
  · rw [delete_project_flag]

/-- C10 witness: deleting the absent project 99 of the demo store
returns false yet still removed nothing of project 1; deleting project 1
removes its concept even though the check happens afterwards. -/
theorem delete_project_cascade_before_check_witness :
    (delete_project (init_storage "t") 1).2.brand_concepts 1 = none ∧
    (delete_project (init_storage "t") 99).1 = false := by
  constructor
  · exact (delete_project_cascade_before_check (init_storage "t") 1).1 1 _ rfl rfl
  · have h := (delete_project_cascade_before_check (init_storage "t") 99).2.2
    cases hb : (delete_project (init_storage "t") 99).1
    · rfl
    · have h2 := h.mp hb
      exact absurd h2 (by decide)

/-- C6 counterexample: a reply with no brace span at all is not a
ParseError: the code falls back to parsing the whole reply, so the bare
JSON number reply "42" makes `regenerate_typography` succeed with the
number 42 as its result. -/
theorem extraction_fallback_counterexample :
    extractBraceSpan "42" = none ∧
    extract_and_parse extractBraceSpan "42" = .ok (.num 42) ∧
    (regenerate_typography "Acme" "" "" [] "modern" [] bare_number_client).1 =
      .ok (.num 42) := ⟨rfl, rfl, rfl⟩

/-- C6 amended: the extraction step parses exactly the first-brace to
last-brace span when one exists; when no such span exists it parses the
entire reply instead of failing; in either case a ParseError arises
exactly when the chosen string is not valid JSON. -/
theorem extract_and_parse_fallback_amended (content : String) :
    (∀ sp, extractBraceSpan content = some sp →
      extract_and_parse extractBraceSpan content =
        match jsonLoads sp with
        | some v => .ok v
        | none => .error (.parseError sp)) ∧
    (extractBraceSpan content = none →
      extract_and_parse extractBraceSpan content =
        match jsonLoads content with
        | some v => .ok v
        | none => .error (.parseError content)) := by
  constructor
  · intro sp hsp
    simp [extract_and_parse, hsp]
  · intro hnone
    simp [extract_and_parse, hnone]

/-- C6 amended witness: the two branches exercised on concrete replies:
a reply wrapped in prose parses just its brace span, and the span-free
reply "42" parses whole. -/
theorem extract_and_parse_fallback_amended_witness :
    extract_and_parse extractBraceSpan "noise \x7b\"a\": 1\x7d tail" =
      .ok (.obj [("a", .num 1)]) ∧
    extract_and_parse extractBraceSpan "42" = .ok (.num 42) := by
  constructor
  · have h := (extract_and_parse_fallback_amended "noise \x7b\"a\": 1\x7d tail").1
      "\x7b\"a\": 1\x7d" rfl
    exact h.trans rfl
  · have h := (extract_and_parse_fallback_amended "42").2 rfl
    exact h.trans rfl

set_option maxRecDepth 4000

/-- C9 counterexample: with industry absent the prompt is built with an
empty industry slot, not with "General business": the outbound request
interpolates industry = "", its Industry line is empty, and the claimed
default text appears nowhere in the interpolated head of the prompt. -/
theorem concept_prompt_industry_default_counterexample :
    (generate_brand_concept bare_name_input sample_client 1234).2 =
      [.text { model := "claude-3-7-sonnet-20250219", max_tokens := 4000,
               temperature := "0.7", system := concept_system,
               messages := [⟨"user",
                 concept_prompt "Acme" "" "" "Quality, Innovation, Reliability"
                   "modern" "Open to suggestions" 1234⟩] }] ∧
    containsSub "Industry: \n".data
      (concept_prompt_head "Acme" "" "" "Quality, Innovation, Reliability" "modern"
        "Open to suggestions").data = true ∧
    containsSub "General business".data
      (concept_prompt_head "Acme" "" "" "Quality, Innovation, Reliability" "modern"
        "Open to suggestions").data = false := ⟨rfl, rfl, rfl⟩

/-- C9 amended: for a brand input with every optional field absent, the
generation prompt embeds the defaults actually used by the code: the
empty string for industry (and description), "Quality, Innovation,
Reliability" for the values, "modern" for the design style, "Open to
suggestions" for the color preferences, and the randomized seed is
interpolated between the fixed prompt prefix and suffix of every
request. -/
theorem concept_prompt_defaults_amended (bn : String) (seed : Nat)
    (client : TextClient) :
    (generate_brand_concept ⟨some bn, none, none, none, none, none⟩ client seed).2 =
      [.text { model := "claude-3-7-sonnet-20250219", max_tokens := 4000,
               temperature := "0.7", system := concept_system,
               messages := [⟨"user",
                 concept_prompt_head bn "" "" "Quality, Innovation, Reliability"
                   "modern" "Open to suggestions" ++ toString seed ++
                   concept_prompt_tail⟩] }] := rfl

/-- C4: `generate_brand_concept` performs no brand-name validation. On
the empty brand input it still issues the text-service request — whose
prompt interpolates an empty brand name — and, with a well-formed reply,
returns successfully instead of failing with a ValidationError. -/
theorem generate_brand_concept_skips_name_validation :
    (generate_brand_concept emptyBrandInput sample_client 1234).2 =
      [.text { model := "claude-3-7-sonnet-20250219", max_tokens := 4000,
               temperature := "0.7", system := concept_system,
               messages := [⟨"user",
                 concept_prompt "" "" "" "Quality, Innovation, Reliability"
                   "modern" "Open to suggestions" 1234⟩] }] ∧
    (∃ j, (generate_brand_concept emptyBrandInput sample_client 1234).1 = .ok j) :=
  ⟨rfl, ⟨_, rfl⟩⟩

/-- C1: on a successful run whose model reply carries every required key
(colors, typography, logoDescription, tagline and a logo placeholder),
`generate_brand_concept` still returns an object whose only key is
"logo": line 130 rebinds the parsed concept to the return value of
`generate_logo_svgs`, dropping colors, typography, logoDescription and
tagline from the result. -/
theorem generate_brand_concept_drops_concept_fields :
    ((jsonLoads sample_reply).bind Json.objKeys =
      some ["logo", "colors", "typography", "logoDescription", "tagline"]) ∧
    ((generate_brand_concept solystra_input sample_client 1234).1.toOption.bind
      Json.objKeys = some ["logo"]) := ⟨rfl, rfl⟩

/-- C7: the dispatcher is a pure function of the concept snapshot that
returns only the regenerated facet value (no field of the concept is
written and nothing is persisted — the concept is consumed read-only):
the result for every facet depends only on `brandInputs` and on
`brandOutput.colors`; the colors facet depends on `brandInputs` alone;
and for the typography and logo facets the concept's current
`brandOutput.colors` is passed to the regenerator as context. -/
theorem regenerate_element_frame (c c2 : ConceptDict) (tc : TextClient)
    (rc : ImageClient) :
    (c.brandInputs = c2.brandInputs →
      (c.brandOutput.getD emptyBrandOutput).colors =
        (c2.brandOutput.getD emptyBrandOutput).colors →
      ∀ et, regenerate_element c et tc rc = regenerate_element c2 et tc rc) ∧
    (c.brandInputs = c2.brandInputs →
      regenerate_element c "colors" tc rc = regenerate_element c2 "colors" tc rc) ∧
    (regenerate_element c "typography" tc rc =
      regenerate_typography ((c.brandInputs.getD emptyBrandInput).brandName.getD "")
        ((c.brandInputs.getD emptyBrandInput).industry.getD "")
        ((c.brandInputs.getD emptyBrandInput).description.getD "")
        ((c.brandInputs.getD emptyBrandInput).values.getD [])
        ((c.brandInputs.getD emptyBrandInput).designStyle.getD "modern")
        ((c.brandOutput.getD emptyBrandOutput).colors.getD []) tc) ∧
    (regenerate_element c "logo" tc rc =
      (.ok (regenerate_logo ((c.brandInputs.getD emptyBrandInput).brandName.getD "")
        ((c.brandInputs.getD emptyBrandInput).industry.getD "")
        ((c.brandInputs.getD emptyBrandInput).description.getD "")
        ((c.brandInputs.getD emptyBrandInput).values.getD [])
        ((c.brandInputs.getD emptyBrandInput).designStyle.getD "modern")
        ((c.brandOutput.getD emptyBrandOutput).colors.getD []) rc), [])) := by
  refine ⟨?_, ?_, rfl, rfl⟩
  · intro h1 h2 et
    simp only [regenerate_element, h1, h2]
  · intro h1
    have e1 : regenerate_element c "colors" tc rc =
        regenerate_colors ((c.brandInputs.getD emptyBrandInput).brandName.getD "")
          ((c.brandInputs.getD emptyBrandInput).industry.getD "")
          ((c.brandInputs.getD emptyBrandInput).description.getD "")
          ((c.brandInputs.getD emptyBrandInput).values.getD [])
          ((c.brandInputs.getD emptyBrandInput).designStyle.getD "modern") tc := rfl
    have e2 : regenerate_element c2 "colors" tc rc =
        regenerate_colors ((c2.brandInputs.getD emptyBrandInput).brandName.getD "")
          ((c2.brandInputs.getD emptyBrandInput).industry.getD "")
          ((c2.brandInputs.getD emptyBrandInput).description.getD "")
          ((c2.brandInputs.getD emptyBrandInput).values.getD [])
          ((c2.brandInputs.getD emptyBrandInput).designStyle.getD "modern") tc := rfl
    rw [e1, e2, h1]

/-- C7 witness: two stored concepts agreeing on brandInputs and on
brandOutput.colors but differing in every other brandOutput field get
identical regeneration results. -/
theorem regenerate_element_frame_witness :
    regenerate_element concept_a "colors" sample_client failing_image_client =
      regenerate_element concept_b "colors" sample_client failing_image_client ∧
    regenerate_element concept_a "typography" sample_client failing_image_client =
      regenerate_element concept_b "typography" sample_client failing_image_client :=
  ⟨(regenerate_element_frame concept_a concept_b sample_client failing_image_client).2.1
      rfl,
   (regenerate_element_frame concept_a concept_b sample_client failing_image_client).1
      rfl rfl "typography"⟩

/-- Pointwise effect of `set_active_brand_concept` on the concept store:
the target is activated when present, every other concept of the given
project is deactivated, everything else is untouched. -/
theorem set_active_bc_eq (s : MemStorage) (id pid cid : Nat) :
    (set_active_brand_concept s id pid).2.brand_concepts cid =
      if cid = id then (s.brand_concepts id).map (fun c => { c with isActive := true })
      else match s.brand_concepts cid with
        | some c => if c.projectId = pid then some { c with isActive := false } else some c
        | none => none := by
  simp only [set_active_brand_concept]
  by_cases hcid : cid = id
  · subst hcid
    simp
    all_goals cases s.brand_concepts cid <;> simp
  · simp [hcid]

/-- A `set_active_brand_concept` call whose project argument matches the
target concept's own project leaves at most one active concept per
project, provided distinct non-target concepts were already unique. -/
theorem set_active_preserves (s : MemStorage) (id pid : Nat)
    (hpairs : ∀ i j ci cj, i ≠ id → j ≠ id → s.brand_concepts i = some ci →
      s.brand_concepts j = some cj → ci.projectId = cj.projectId →
      ci.isActive = true → cj.isActive = true → i = j)
    (htarget : ∀ c, s.brand_concepts id = some c → c.projectId = pid) :
    ActiveUnique (set_active_brand_concept s id pid).2 := by
  intro i j ci cj hi hj hp hai haj
  rw [set_active_bc_eq] at hi hj
  by_cases hiid : i = id <;> by_cases hjid : j = id
  · rw [hiid, hjid]
  · subst hiid
    simp at hi
    obtain ⟨c, hc, hci⟩ := hi
    simp [hjid] at hj
    cases hcj : s.brand_concepts j with
    | none => rw [hcj] at hj; exact absurd hj (by simp)
    | some c2 =>
      rw [hcj] at hj
      by_cases hc2 : c2.projectId = pid
      · simp [hc2] at hj
        rw [← hj] at haj
        simp at haj
      · simp [hc2] at hj
        rw [← hj] at hp
        rw [← hci] at hp
        simp at hp
        rw [htarget c hc] at hp
        exact absurd hp.symm hc2
  · subst hjid
    simp at hj
    obtain ⟨c, hc, hcj⟩ := hj
    simp [hiid] at hi
    cases hci : s.brand_concepts i with
    | none => rw [hci] at hi; exact absurd hi (by simp)
    | some c2 =>
      rw [hci] at hi
      by_cases hc2 : c2.projectId = pid
      · simp [hc2] at hi
        rw [← hi] at hai
        simp at hai
      · simp [hc2] at hi
        rw [← hi] at hp
        rw [← hcj] at hp
        simp at hp
        rw [htarget c hc] at hp
        exact absurd hp hc2
  · simp [hiid] at hi
    simp [hjid] at hj
    cases hci : s.brand_concepts i with
    | none => rw [hci] at hi; exact absurd hi (by simp)
    | some c1 =>
      cases hcj : s.brand_concepts j with
      | none => rw [hcj] at hj; exact absurd hj (by simp)
      | some c2 =>
        rw [hci] at hi; rw [hcj] at hj
        by_cases h1 : c1.projectId = pid
        · simp [h1] at hi
          rw [← hi] at hai
          simp at hai
        · by_cases h2 : c2.projectId = pid
          · simp [h2] at hj
            rw [← hj] at haj
            simp at haj
          · simp [h1] at hi
            simp [h2] at hj
            rw [← hi] at hp hai
            rw [← hj] at hp haj
            exact hpairs i j c1 c2 hiid hjid hci hcj hp hai haj

/-- `create_brand_concept` keeps the one-active-per-project invariant:
an inactive insert cannot add an active concept, and an active insert
immediately deactivates the new concept's siblings. -/
theorem create_preserves (s : MemStorage) (d : ConceptData) (now : String)
    (h : ActiveUnique s) : ActiveUnique (create_brand_concept s d now).2 := by
  simp only [create_brand_concept]
  by_cases hact : d.isActive.getD false
  · simp only [hact, if_true]
    apply set_active_preserves
    · intro i j ci cj hii hjj hi hj
      simp [hii] at hi
      simp [hjj] at hj
      exact h i j ci cj hi hj
    · intro c hcc
      simp at hcc
      rw [← hcc]
  · rw [if_neg hact]
    intro i j ci cj hi hj hp hai haj
    have hfalse : d.isActive.getD false = false := by simpa using hact
    by_cases hii : i = s.concept_id_counter
    · simp [hii] at hi
      rw [← hi] at hai
      simp [hfalse] at hai
    · simp [hii] at hi
      by_cases hjj : j = s.concept_id_counter
      · simp [hjj] at hj
        rw [← hj] at haj
        simp [hfalse] at haj
      · simp [hjj] at hj
        exact h i j ci cj hi hj hp hai haj

/-- `update_brand_concept` with a patch that does not move the concept
to another project keeps the one-active-per-project invariant. -/
theorem update_preserves (s : MemStorage) (id : Nat) (p : ConceptPatch)
    (hproj : p.projectId = none) (h : ActiveUnique s) :
    ActiveUnique (update_brand_concept s id p).2 := by
  unfold update_brand_concept
  cases hc : s.brand_concepts id with
  | none => exact h
  | some concept =>
    simp only
    split
    · apply set_active_preserves
      · intro i j ci cj hii hjj hi hj
        simp [hii] at hi
        simp [hjj] at hj
        exact h i j ci cj hi hj
      · intro c hcc
        simp at hcc
        rw [← hcc]
        simp [hproj]
    · next hcond =>
      intro i j ci cj hi hj hp hai haj
      by_cases hii : i = id <;> by_cases hjj : j = id
      · rw [hii, hjj]
      · subst hii
        simp at hi
        simp [hjj] at hj
        rw [← hi] at hai hp
        have hnone : p.isActive = none := by
          cases hpi : p.isActive with
          | none => rfl
          | some b =>
            cases b with
            | true => exact absurd ⟨by simp [hpi], by simpa using hai⟩ hcond
            | false => simp [hpi] at hai
        have hconc : concept.isActive = true := by simpa [hnone] using hai
        have h2 := h i j concept cj hc hj (by simpa [hproj] using hp) hconc haj
        exact absurd h2.symm hjj
      · subst hjj
        simp at hj
        simp [hii] at hi
        rw [← hj] at haj hp
        have hnone : p.isActive = none := by
          cases hpi : p.isActive with
          | none => rfl
          | some b =>
            cases b with
            | true => exact absurd ⟨by simp [hpi], by simpa using haj⟩ hcond
            | false => simp [hpi] at haj
        have hconc : concept.isActive = true := by simpa [hnone] using haj
        have h2 := h i j ci concept hi hc (by simpa [hproj] using hp) hai hconc
        exact absurd h2 hii
      · simp [hii] at hi
        simp [hjj] at hj
        exact h i j ci cj hi hj hp hai haj

/-- Deleting a concept keeps the one-active-per-project invariant. -/
theorem delete_concept_preserves (s : MemStorage) (id : Nat) (h : ActiveUnique s) :
    ActiveUnique (delete_brand_concept s id).2 := by
  unfold delete_brand_concept
  cases hc : s.brand_concepts id with
  | none => exact h
  | some c0 =>
    simp only
    intro i j ci cj hi hj hp hai haj
    by_cases hii : i = id
    · simp [hii] at hi
    · simp [hii] at hi
      by_cases hjj : j = id
      · simp [hjj] at hj
      · simp [hjj] at hj
        exact h i j ci cj hi hj hp hai haj

/-- Deleting a project keeps the one-active-per-project invariant. -/
theorem delete_project_preserves (s : MemStorage) (pid : Nat) (h : ActiveUnique s) :
    ActiveUnique (delete_project s pid).2 := by
  intro i j ci cj hi hj hp hai haj
  rw [delete_project_bc] at hi hj
  cases hci : s.brand_concepts i with
  | none => rw [hci] at hi; exact absurd hi (by simp)
  | some c1 =>
    rw [hci] at hi
    by_cases h1 : c1.projectId = pid
    · simp [h1] at hi
    · simp [h1] at hi
      cases hcj : s.brand_concepts j with
      | none => rw [hcj] at hj; exact absurd hj (by simp)
      | some c2 =>
        rw [hcj] at hj
        by_cases h2 : c2.projectId = pid
        · simp [h2] at hj
        · simp [h2] at hj
          rw [← hi] at hp hai
          rw [← hj] at hp haj
          exact h i j c1 c2 hci hcj hp hai haj

/-- The demo store satisfies the one-active-per-project invariant. -/
theorem init_activeUnique (now : String) : ActiveUnique (init_storage now) := by
  unfold init_storage
  apply create_preserves
  apply create_preserves
  intro i j ci cj hi hj hp hai haj
  have hi2 : (none : Option StoredConcept) = some ci := hi
  exact Option.noConfusion hi2

/-- Disciplined runs keep the one-active-per-project invariant. -/
theorem reach_activeUnique (s : MemStorage) (hr : DisciplinedReach s) :
    ActiveUnique s := by
  induction hr with
  | init now => exact init_activeUnique now
  | createProject s d now _ ih => exact ih
  | createConcept s d now _ ih => exact create_preserves s d now ih
  | updateConcept s id p hp _ ih => exact update_preserves s id p hp ih
  | setActive s id pid hap _ ih =>
      exact set_active_preserves s id pid
        (fun i j ci cj _ _ hi hj => ih i j ci cj hi hj) hap
  | deleteConcept s id _ ih => exact delete_concept_preserves s id ih
  | deleteProject s id _ ih => exact delete_project_preserves s id ih

/-- C3 counterexample: the invariant is not maintained across arbitrary
use of the three operations. Starting from the demo store, create an
inactive third concept in project 1, then call
`set_active_brand_concept(3, 2)` with the mismatched project id 2: the
call deactivates project 2's concepts but activates concept 3, leaving
concepts 1 and 3 - both of project 1 - active at once. -/
theorem active_invariant_counterexample :
    ¬ ActiveUnique (set_active_brand_concept storage_with_third 3 2).2 := by
  intro h
  have h2 := h 1 3 initial_concept_row third_concept_row_active rfl rfl rfl rfl rfl
  exact absurd h2 (by decide)

/-- C3 amended: at most one concept per project is active in every
storage state reachable from `__init__` through create, update, delete
and activation, provided `set_active_brand_concept` is only invoked
with the target concept's own projectId and updates never change a
concept's projectId (which is how routes.py invokes them); and the
activation postcondition holds whenever the activated concept belongs
to the given project: after `set_active_brand_concept(c2, p)`, a
different concept c1 of project p is inactive and c2 is active. -/
theorem active_invariant_amended :
    (∀ s, DisciplinedReach s → ActiveUnique s) ∧
    (∀ (s : MemStorage) (c1 c2 pr : Nat) (cc1 cc2 : StoredConcept),
      s.brand_concepts c1 = some cc1 → cc1.projectId = pr →
      s.brand_concepts c2 = some cc2 → cc2.projectId = pr → c1 ≠ c2 →
      (set_active_brand_concept s c2 pr).2.brand_concepts c1 =
          some { cc1 with isActive := false } ∧
      (set_active_brand_concept s c2 pr).2.brand_concepts c2 =
          some { cc2 with isActive := true }) := by
  constructor
  · exact reach_activeUnique
  · intro s c1 c2 pr cc1 cc2 h1 hp1 h2 hp2 hne
    constructor
    · rw [set_active_bc_eq, if_neg hne, h1]
      simp [hp1]
    · rw [set_active_bc_eq, if_pos rfl, h2]
      rfl

/-- C3 amended witness: the demo store is reachable and satisfies the
invariant, and a matching-project activation of concept 3 in project 1
deactivates the previously active concept 1 and activates concept 3. -/
theorem active_invariant_amended_witness :
    ActiveUnique (init_storage "t") ∧
    ((set_active_brand_concept storage_with_third 3 1).2.brand_concepts 1 =
        some { initial_concept_row with isActive := false } ∧
     (set_active_brand_concept storage_with_third 3 1).2.brand_concepts 3 =
        some { third_concept_row_inactive with isActive := true }) := by
  constructor
  · exact active_invariant_amended.1 (init_storage "t") (DisciplinedReach.init "t")
  · exact active_invariant_amended.2 storage_with_third 1 3 1 initial_concept_row
      third_concept_row_inactive rfl rfl rfl rfl (by decide)
